import Mathlib

/-!
Verification of the `sl` service-locator package (aziis98/go-sl, file `sl.go`)
against its specification.

Modelling conventions (shallow embedding of the Go code):

* Tokens. Go's `slot[T]`/`hook[T]` are pointers to empty structs
  (`new(struct{})`), used as `map[any]` keys, so token identity is
  interface equality: dynamic type (`slot[T]` resp. `hook[T]`) plus pointer
  value. The Go specification does not guarantee distinct addresses for
  zero-size allocations, and the reference gc runtime returns the one
  shared `runtime.zerobase` address for every escaping zero-size
  allocation — and the allocation in `NewSlot`/`NewHook` escapes (the
  token is returned and later stored in an interface-keyed map). A token
  is therefore modelled as `Token`: its kind and payload-type label (the
  dynamic type) together with its address, and `NewSlot`/`NewHook` return
  the `zerobase` address on every call. The registration and resolution
  operations below are keyed by a plain `Nat` standing for one such
  interface-key identity class; which tokens fall into one class is the
  business of the token layer alone.

* The registry. `ServiceLocator` holds `providers`/`hooks` maps keyed by
  tokens (`map[any]*slotEntry`, `map[any]*hookEntry`). We model each map as
  an association list with at most one binding per key, maintained by
  `insertA` (replace-or-append) and read by `lookupA`. Go mutates entries in
  place through the stored pointer; we model this by state passing: every
  operation returns the updated `ServiceLocator`.

* Values. The Go code stores values as `any` and recovers them with a type
  assertion. We are generic over a value type `Val`; the `any` field that
  starts out as `nil` is `Option Val`, and the type assertion on a `nil`
  interface value is a runtime panic, represented by `GoRet.nilPanic`.
  Go's `zero[T]()` is `default` of an `Inhabited` instance.

* Results. Go functions return `(T, error)` pairs and may also panic. A
  call outcome is `GoRet α`: `ret v e` is a normal return of the pair
  (`e = none` means a nil error), `nilPanic` is a runtime nil-dereference /
  failed-type-assertion panic, and `errPanic e` is an explicit `panic(err)`
  as in `MustUse`.

* Constructors. A lazy constructor is `func(*ServiceLocator) (T, error)`.
  The constructors exercised by the specification's testable properties
  return a value or an error and do not consult the registry, so they are
  deep-embedded as `Ctor` (`ret v` / `fail e`); `Ctor.run` ignores the
  registry argument that `ensureConfigured` passes (kept as `_l` there).
  Whether a call ran the constructor is reported as an "invoked" Boolean,
  the side-effecting counter of the spec's memoization property.

* Hook listeners. A listener is `func(*ServiceLocator, T) error`. We model
  a listener as a `tag` (its observable side effect: dispatching appends
  the tag to a trace, which is never rolled back) together with a
  `behavior : Val → Except Err Unit` deciding its result from the payload.
  The type-assertion wrapper `ProvideHook` builds around each listener
  always succeeds when the registry is used through the typed API, so the
  stored listener is the listener itself.
-/

namespace GoSL

/-- Errors produced by the package: `notRegistered ty` is the
`fmt.Errorf("no injected value for type %s", ...)` error from
`useSlotValue`, and `msg s` is an opaque error produced by a user
constructor or hook listener. -/
inductive Err where
  | notRegistered (typeName : String)
  | msg (s : String)
deriving DecidableEq, Repr

/-- Outcome of a Go call: a normal return of the `(value, error)` pair, a
runtime panic from dereferencing a nil pointer or asserting the type of a
nil interface value, or an explicit `panic(err)`. -/
inductive GoRet (α : Type) where
  | ret (v : α) (e : Option Err)
  | nilPanic
  | errPanic (e : Err)
deriving DecidableEq, Repr

/-- A lazy constructor, as used by the spec's testable properties: it either
returns a value or fails with an error. -/
inductive Ctor (Val : Type) where
  | ret (v : Val)
  | fail (e : Err)
deriving DecidableEq, Repr

/-- Running a constructor: `ret v` is a constructor returning `(v, nil)`,
`fail e` one returning `(zero, e)` (the value half is discarded by the
caller on error, so we keep `Except`). -/
def Ctor.run {Val : Type} : Ctor Val → Except Err Val
  | .ret v => .ok v
  | .fail e => .error e

/-- `slotEntry` from `sl.go`: type label (diagnostics only), optional lazy
`configureFunc` (`none` models Go's nil function field of an eagerly
provided entry), the `configured` flag, and the stored `value` (`none`
models the nil `any` of a not-yet-configured entry). -/
structure slotEntry (Val : Type) where
  typeName : String
  configureFunc : Option (Ctor Val)
  configured : Bool
  value : Option Val
deriving DecidableEq, Repr

/-- A hook listener: `tag` names its observable side effect (dispatch
appends it to the returned trace), `behavior` decides its result from the
payload. -/
structure HookListener (Val : Type) where
  tag : Nat
  behavior : Val → Except Err Unit

/-- `hookEntry` from `sl.go`: type label and the ordered listener list. -/
structure hookEntry (Val : Type) where
  typeName : String
  listeners : List (HookListener Val)

/-- Association-list lookup: first binding for the key, as a Go map read. -/
def lookupA {α : Type} : List (Nat × α) → Nat → Option α
  | [], _ => none
  | (k', b) :: t, k => if k' = k then some b else lookupA t k

/-- Association-list write: replace the existing binding for the key, or
append a fresh one, as a Go map write. -/
def insertA {α : Type} : List (Nat × α) → Nat → α → List (Nat × α)
  | [], k, a => [(k, a)]
  | (k', b) :: t, k, a => if k' = k then (k, a) :: t else (k', b) :: insertA t k a

/-- `ServiceLocator` from `sl.go`: the two token-keyed maps. -/
structure ServiceLocator (Val : Type) where
  providers : List (Nat × slotEntry Val)
  hooks : List (Nat × hookEntry Val)

/-- `New`: a locator with empty maps. -/
def New (Val : Type) : ServiceLocator Val := ⟨[], []⟩

/-- The kind of a token: the dynamic type of a slot token is `slot[T]` and
of a hook token `hook[T]`, so tokens of the two kinds never compare equal
as interface values, whatever their pointer values. -/
inductive TokenKind where
  | slotK
  | hookK
deriving DecidableEq, Repr

/-- A token as it figures as a `map[any]` key: its dynamic type (kind and
payload-type label) and its pointer value. Interface equality — and hence
token identity in the registry maps — is structural equality of these
three components. -/
structure Token where
  kind : TokenKind
  typeName : String
  addr : Nat
deriving DecidableEq, Repr

/-- The address `new(struct{})` yields for an escaping allocation under the
reference gc runtime: `mallocgc` returns the single shared
`runtime.zerobase` address for every zero-size allocation (the Go
specification likewise allows distinct zero-size variables to share an
address). The allocation in `NewSlot`/`NewHook` escapes, so every call
receives this same address. -/
def zerobase : Nat := 0

/-- `NewSlot[T]` from `sl.go`: `slot[T](new(struct{}))`. The zero-size
allocation yields `zerobase` on every call, so the returned token carries
no per-call identity — only the dynamic type `slot[T]` distinguishes
tokens, despite the comment in the source promising that "each instance is
unique". -/
def NewSlot (tyName : String) : Token :=
  { kind := .slotK, typeName := tyName, addr := zerobase }

/-- `NewHook[T]` from `sl.go`: `hook[T](new(struct{}))`, exactly as
`NewSlot`. -/
def NewHook (tyName : String) : Token :=
  { kind := .hookK, typeName := tyName, addr := zerobase }

/-- The token returned by the `(n+1)`-st call of `NewSlot[T]` in a sequence
of calls. The call index is explicit so that distinct calls can be spoken
about; the result of `NewSlot` does not depend on it. -/
def slotTokenAt (ty : String) (_n : Nat) : Token := NewSlot ty

/-- The token returned by the `(n+1)`-st call of `NewHook[T]` in a sequence
of calls. -/
def hookTokenAt (ty : String) (_n : Nat) : Token := NewHook ty

/-- `slotEntry.ensureConfigured` from `sl.go`: if not yet configured, call
`configureFunc(l)`; on error return it and leave the entry untouched; on
success store the value and set `configured`. Returns the updated entry,
whether the constructor was invoked, and the call outcome. Calling the nil
`configureFunc` of an eager entry would be a runtime panic (unreachable
through the public API, kept for faithfulness). The registry argument is
unused because modelled constructors do not consult it. -/
def slotEntry.ensureConfigured {Val : Type} (s : slotEntry Val)
    (_l : ServiceLocator Val) : slotEntry Val × Bool × GoRet Unit :=
  if s.configured then (s, false, .ret () none)
  else
    match s.configureFunc with
    | none => (s, false, .nilPanic)
    | some c =>
      match c.run with
      | .error e => (s, true, .ret () (some e))
      | .ok v => ({ s with configured := true, value := some v }, true, .ret () none)

/-- `Provide` from `sl.go`: eagerly store a configured entry (overwriting
any prior binding) and return the value unchanged. -/
def Provide {Val : Type} (l : ServiceLocator Val) (slotKey : Nat)
    (tyName : String) (value : Val) : ServiceLocator Val × Val :=
  let entry : slotEntry Val :=
    { typeName := tyName, configureFunc := none, configured := true,
      value := some value }
  ({ l with providers := insertA l.providers slotKey entry }, value)

/-- `ProvideFunc` from `sl.go`: store an unconfigured entry holding the
constructor (overwriting any prior binding); the constructor is not run. -/
def ProvideFunc {Val : Type} (l : ServiceLocator Val) (slotKey : Nat)
    (tyName : String) (createFunc : Ctor Val) : ServiceLocator Val :=
  let entry : slotEntry Val :=
    { typeName := tyName, configureFunc := some createFunc,
      configured := false, value := none }
  { l with providers := insertA l.providers slotKey entry }

/-- `useSlotValue` from `sl.go`: look up the entry (error `notRegistered`
if absent), `ensureConfigured` it (writing the possibly mutated entry back,
as Go's in-place pointer mutation does), and return the stored value; the
type assertion on a nil stored value would panic. -/
def useSlotValue {Val : Type} [Inhabited Val] (l : ServiceLocator Val)
    (slotKey : Nat) (tyName : String) :
    ServiceLocator Val × Bool × GoRet Val :=
  match lookupA l.providers slotKey with
  | none => (l, false, .ret default (some (.notRegistered tyName)))
  | some s =>
    match s.ensureConfigured l with
    | (s', invoked, .ret _ none) =>
      let l' : ServiceLocator Val :=
        { l with providers := insertA l.providers slotKey s' }
      match s'.value with
      | some v => (l', invoked, .ret v none)
      | none => (l', invoked, .nilPanic)
    | (s', invoked, .ret _ (some e)) =>
      ({ l with providers := insertA l.providers slotKey s' }, invoked,
       .ret default (some e))
    | (s', invoked, .nilPanic) =>
      ({ l with providers := insertA l.providers slotKey s' }, invoked, .nilPanic)
    | (s', invoked, .errPanic e) =>
      ({ l with providers := insertA l.providers slotKey s' }, invoked, .errPanic e)

/-- `Use` from `sl.go`: `useSlotValue`, returning `(zero, err)` on error. -/
def Use {Val : Type} [Inhabited Val] (l : ServiceLocator Val) (slotKey : Nat)
    (tyName : String) : ServiceLocator Val × Bool × GoRet Val :=
  match useSlotValue l slotKey tyName with
  | (l', invoked, .ret _ (some e)) => (l', invoked, .ret default (some e))
  | r => r

/-- `MustUse` from `sl.go`: as `Use` but `panic(err)` on error. -/
def MustUse {Val : Type} [Inhabited Val] (l : ServiceLocator Val)
    (slotKey : Nat) (tyName : String) : ServiceLocator Val × Bool × GoRet Val :=
  match useSlotValue l slotKey tyName with
  | (l', invoked, .ret _ (some e)) => (l', invoked, .errPanic e)
  | r => r

/-- `Invoke` from `sl.go`: as `Use` but the value is discarded. -/
def Invoke {Val : Type} [Inhabited Val] (l : ServiceLocator Val)
    (slotKey : Nat) (tyName : String) : ServiceLocator Val × Bool × GoRet Unit :=
  match useSlotValue l slotKey tyName with
  | (l', invoked, .ret _ e) => (l', invoked, .ret () e)
  | (l', invoked, .nilPanic) => (l', invoked, .nilPanic)
  | (l', invoked, .errPanic e) => (l', invoked, .errPanic e)

/-- `MustInvoke` from `sl.go`: as `Invoke` but `panic(err)` on error. -/
def MustInvoke {Val : Type} [Inhabited Val] (l : ServiceLocator Val)
    (slotKey : Nat) (tyName : String) : ServiceLocator Val × Bool × GoRet Unit :=
  match useSlotValue l slotKey tyName with
  | (l', invoked, .ret _ none) => (l', invoked, .ret () none)
  | (l', invoked, .ret _ (some e)) => (l', invoked, .errPanic e)
  | (l', invoked, .nilPanic) => (l', invoked, .nilPanic)
  | (l', invoked, .errPanic e) => (l', invoked, .errPanic e)

/-- `ProvideHook` from `sl.go`: replace the whole entry for the hook key
with the given listener list, in the given order. (Go wraps each typed
listener in a type-assertion shim; the assertion always holds through the
typed API, so the stored listener is the listener itself.) -/
def ProvideHook {Val : Type} (l : ServiceLocator Val) (hookKey : Nat)
    (tyName : String) (listeners : List (HookListener Val)) :
    ServiceLocator Val :=
  let entry : hookEntry Val := { typeName := tyName, listeners := listeners }
  { l with hooks := insertA l.hooks hookKey entry }

/-- The dispatch loop of `UseHook`: call each listener in order with the
payload, appending its tag to the trace; stop at the first error and return
it unchanged. Earlier tags stay in the trace (effects are not rolled
back). -/
def runListeners {Val : Type} (_l : ServiceLocator Val) (value : Val) :
    List (HookListener Val) → List Nat × GoRet Unit
  | [] => ([], .ret () none)
  | h :: t =>
    match h.behavior value with
    | .error e => ([h.tag], .ret () (some e))
    | .ok _ =>
      let r := runListeners _l value t
      (h.tag :: r.1, r.2)

/-- `UseHook` from `sl.go`. When the hook key has no entry, the Go code
formats its error message with `hookEntry.typeName` while `hookEntry` is
the nil pointer just returned by the failed map lookup, so the call panics
with a nil dereference instead of returning the intended error: the `none`
branch is `nilPanic`. Otherwise the listeners run in order; the registry
maps are never written. -/
def UseHook {Val : Type} (l : ServiceLocator Val) (hookKey : Nat)
    (value : Val) : ServiceLocator Val × List Nat × GoRet Unit :=
  match lookupA l.hooks hookKey with
  | none => (l, [], .nilPanic)
  | some he =>
    let r := runListeners l value he.listeners
    (l, r.1, r.2)

/-- `MustUseHook` from `sl.go`: as `UseHook` but `panic(err)` on error. -/
def MustUseHook {Val : Type} (l : ServiceLocator Val) (hookKey : Nat)
    (value : Val) : ServiceLocator Val × List Nat × GoRet Unit :=
  match UseHook l hookKey value with
  | (l', tr, .ret _ (some e)) => (l', tr, .errPanic e)
  | r => r

/-!
Helper lemmas about the association-list maps and the shared parts of the
operations.
-/

/-- Reading back the key just written returns the written value. -/
theorem lookupA_insertA_self {α : Type} (m : List (Nat × α)) (k : Nat) (a : α) :
    lookupA (insertA m k a) k = some a := by
  induction m with
  | nil => simp [insertA, lookupA]
  | cons hd t ih =>
    obtain ⟨k', b⟩ := hd
    by_cases hk : k' = k <;> simp [insertA, lookupA, hk, ih]

/-- Writing back the value already bound to a key leaves the map unchanged. -/
theorem insertA_lookup_eq {α : Type} {m : List (Nat × α)} {k : Nat} {a : α}
    (h : lookupA m k = some a) : insertA m k a = m := by
  induction m with
  | nil => simp [lookupA] at h
  | cons hd t ih =>
    obtain ⟨k', b⟩ := hd
    by_cases hk : k' = k
    · simp [lookupA, hk] at h
      simp [insertA, hk, h]
    · simp [lookupA, hk] at h
      simp [insertA, hk, ih h]

/-- Two successive writes to the same key collapse to the second write. -/
theorem insertA_insertA {α : Type} (m : List (Nat × α)) (k : Nat) (a b : α) :
    insertA (insertA m k a) k b = insertA m k b := by
  induction m with
  | nil => simp [insertA]
  | cons hd t ih =>
    obtain ⟨k', c⟩ := hd
    by_cases hk : k' = k <;> simp [insertA, hk, ih]

/-- `useSlotValue` on an already configured entry returns the stored value,
invokes no constructor, and leaves the locator unchanged. -/
theorem useSlotValue_configured {Val : Type} [Inhabited Val]
    (l : ServiceLocator Val) (key : Nat) (ty : String) (s : slotEntry Val)
    (v : Val) (hl : lookupA l.providers key = some s) (hc : s.configured = true)
    (hv : s.value = some v) :
    useSlotValue l key ty = (l, false, .ret v none) := by
  simp [useSlotValue, hl, slotEntry.ensureConfigured, hc, hv,
    insertA_lookup_eq hl]

/-- Dispatching over listeners that all succeed on the payload invokes each
of them in order and succeeds. -/
theorem runListeners_all_ok {Val : Type} (l : ServiceLocator Val) (v : Val)
    (ls : List (HookListener Val)) (h : ∀ L ∈ ls, L.behavior v = .ok ()) :
    runListeners l v ls = (ls.map HookListener.tag, .ret () none) := by
  induction ls with
  | nil => simp [runListeners]
  | cons hd t ih =>
    have hhd : hd.behavior v = .ok () := h hd (by simp)
    have ht : ∀ L ∈ t, L.behavior v = .ok () := fun L hL => h L (by simp [hL])
    simp [runListeners, hhd, ih ht]

/-- Dispatching over a succeeding prefix followed by a failing listener
invokes the prefix and the failing listener only, and returns that
listener's error unchanged. -/
theorem runListeners_prefix_fail {Val : Type} (l : ServiceLocator Val)
    (v : Val) (pre post : List (HookListener Val)) (bad : HookListener Val)
    (e : Err) (hpre : ∀ L ∈ pre, L.behavior v = .ok ())
    (hbad : bad.behavior v = .error e) :
    runListeners l v (pre ++ bad :: post) =
      (pre.map HookListener.tag ++ [bad.tag], .ret () (some e)) := by
  induction pre with
  | nil => simp [runListeners, hbad]
  | cons hd t ih =>
    have hhd : hd.behavior v = .ok () := hpre hd (by simp)
    have ht : ∀ L ∈ t, L.behavior v = .ok () := fun L hL => hpre L (by simp [hL])
    simp [runListeners, hhd, ih ht]

/-!
Claim theorems.
-/

/-- C4. The claim says `UseHook` on an unregistered hook token returns an
ordinary `HookNotRegistered`-style error. The code instead formats the error
message through the nil `*hookEntry` returned by the failed map lookup, so
the call panics with a nil dereference (`GoRet.nilPanic`); the registry is
left unchanged. This theorem records the actual behaviour at such an input,
refuting the error-return part of the claim. -/
theorem useHook_unregistered_panics {Val : Type} (l : ServiceLocator Val)
    (key : Nat) (v : Val) (h : lookupA l.hooks key = none) :
    UseHook l key v = (l, [], .nilPanic) := by
  simp [UseHook, h]

/-- Witness for `useHook_unregistered_panics` at a concrete input: a fresh
locator, token `0`, payload `0`. -/
theorem useHook_unregistered_panics_witness :
    lookupA (New Nat).hooks 0 = none ∧
    UseHook (New Nat) 0 0 = (New Nat, [], .nilPanic) :=
  ⟨rfl, useHook_unregistered_panics (New Nat) 0 0 rfl⟩

/-- C5. `Use` and `Invoke` on a slot token with no entry return the
`notRegistered` error carrying the type label, with the zero value
accompanying the error for `Use`, no constructor invoked, and the locator
unchanged. -/
theorem use_unregistered {Val : Type} [Inhabited Val] (l : ServiceLocator Val)
    (key : Nat) (ty : String) (h : lookupA l.providers key = none) :
    Use l key ty = (l, false, .ret default (some (.notRegistered ty))) ∧
    Invoke l key ty = (l, false, .ret () (some (.notRegistered ty))) := by
  simp [Use, Invoke, useSlotValue, h]

/-- Witness for `use_unregistered`: a fresh locator over `Nat`, token `0`. -/
theorem use_unregistered_witness :
    lookupA (New Nat).providers 0 = none ∧
    (Use (New Nat) 0 "int" =
        (New Nat, false, .ret 0 (some (.notRegistered "int"))) ∧
      Invoke (New Nat) 0 "int" =
        (New Nat, false, .ret () (some (.notRegistered "int")))) :=
  ⟨rfl, use_unregistered (New Nat) 0 "int" rfl⟩

/-- C6. Registering a hook token twice leaves exactly the second call's
listeners in the second call's order: the resulting locator is the one the
second registration alone would have produced, and the entry holds the
second listener list. -/
theorem provideHook_replaces {Val : Type} (l : ServiceLocator Val)
    (key : Nat) (ty1 ty2 : String) (ls1 ls2 : List (HookListener Val)) :
    ProvideHook (ProvideHook l key ty1 ls1) key ty2 ls2 =
      ProvideHook l key ty2 ls2 ∧
    lookupA (ProvideHook (ProvideHook l key ty1 ls1) key ty2 ls2).hooks key =
      some ⟨ty2, ls2⟩ := by
  constructor
  · simp [ProvideHook, insertA_insertA]
  · simp [ProvideHook, insertA_insertA, lookupA_insertA_self]

/-- C7. `Provide` returns the value unchanged, stores an eagerly configured
entry for the token (overwriting whatever entry, eager or lazy, was there,
since the conclusion holds for every prior locator `l`), and an immediate
`Use` returns the value with no constructor invocation and no state
change. -/
theorem provide_eager {Val : Type} [Inhabited Val] (l : ServiceLocator Val)
    (key : Nat) (ty : String) (v : Val) :
    (Provide l key ty v).2 = v ∧
    lookupA (Provide l key ty v).1.providers key = some ⟨ty, none, true, some v⟩ ∧
    Use (Provide l key ty v).1 key ty =
      ((Provide l key ty v).1, false, .ret v none) := by
  refine ⟨rfl, ?_, ?_⟩
  · simp [Provide, lookupA_insertA_self]
  · have h := useSlotValue_configured (Provide l key ty v).1 key ty
      ⟨ty, none, true, some v⟩ v (by simp [Provide, lookupA_insertA_self])
      rfl rfl
    simp [Use, h]

/-- C9. On a slot whose entry is already configured (stored value `v`),
`Use`, `MustUse` and `Invoke` all return the stored value (with a nil
error), invoke no constructor, and leave the whole locator — both the
provider and hook maps — unchanged. -/
theorem configured_slot_frame {Val : Type} [Inhabited Val]
    (l : ServiceLocator Val) (key : Nat) (ty : String) (s : slotEntry Val)
    (v : Val) (hl : lookupA l.providers key = some s)
    (hc : s.configured = true) (hv : s.value = some v) :
    Use l key ty = (l, false, .ret v none) ∧
    MustUse l key ty = (l, false, .ret v none) ∧
    Invoke l key ty = (l, false, .ret () none) := by
  have h := useSlotValue_configured l key ty s v hl hc hv
  refine ⟨?_, ?_, ?_⟩ <;> simp [Use, MustUse, Invoke, h]

/-- Witness for `configured_slot_frame`: a locator holding the eagerly
provided value `7` at token `0`. -/
theorem configured_slot_frame_witness :
    lookupA (Provide (New Nat) 0 "int" 7).1.providers 0 =
      some ⟨"int", none, true, some 7⟩ ∧
    (Use (Provide (New Nat) 0 "int" 7).1 0 "int" =
        ((Provide (New Nat) 0 "int" 7).1, false, .ret 7 none) ∧
      MustUse (Provide (New Nat) 0 "int" 7).1 0 "int" =
        ((Provide (New Nat) 0 "int" 7).1, false, .ret 7 none) ∧
      Invoke (Provide (New Nat) 0 "int" 7).1 0 "int" =
        ((Provide (New Nat) 0 "int" 7).1, false, .ret () none)) :=
  ⟨rfl, configured_slot_frame (Provide (New Nat) 0 "int" 7).1 0 "int"
    ⟨"int", none, true, some 7⟩ 7 rfl rfl rfl⟩

/-- C10. A hook registered with an empty listener sequence dispatches
successfully on any payload: no listener is invoked (empty trace) and the
locator is unchanged. -/
theorem empty_hook_dispatch {Val : Type} (l : ServiceLocator Val) (key : Nat)
    (ty : String) (v : Val) :
    UseHook (ProvideHook l key ty []) key v =
      (ProvideHook l key ty [], [], .ret () none) := by
  simp [UseHook, ProvideHook, lookupA_insertA_self, runListeners]

/-- C1. For a lazily registered slot whose constructor succeeds with `v`,
the first `Use` invokes the constructor (invoked flag `true`), returns `v`,
and leaves the entry configured with `v` cached; the second `Use` on the
resulting locator returns the identical stored `v` without invoking the
constructor (invoked flag `false`) and without changing the state, so
across the two calls the constructor ran exactly once, on the first call. -/
theorem lazy_memoization {Val : Type} [Inhabited Val] (l : ServiceLocator Val)
    (key : Nat) (ty : String) (c : Ctor Val) (v : Val) (h : c.run = .ok v) :
    Use (ProvideFunc l key ty c) key ty =
      ({ l with providers := insertA l.providers key ⟨ty, some c, true, some v⟩ },
       true, .ret v none) ∧
    Use ({ l with providers := insertA l.providers key ⟨ty, some c, true, some v⟩ } :
        ServiceLocator Val) key ty =
      ({ l with providers := insertA l.providers key ⟨ty, some c, true, some v⟩ },
       false, .ret v none) := by
  constructor
  · simp [Use, ProvideFunc, useSlotValue, lookupA_insertA_self,
      slotEntry.ensureConfigured, h, insertA_insertA]
  · have hcfg := useSlotValue_configured
      ({ l with providers := insertA l.providers key ⟨ty, some c, true, some v⟩ })
      key ty ⟨ty, some c, true, some v⟩ v (lookupA_insertA_self _ _ _) rfl rfl
    simp [Use, hcfg]

/-- Witness for `lazy_memoization`: the constructor `Ctor.ret 7` at token
`0` of a fresh locator over `Nat`. -/
theorem lazy_memoization_witness :
    (Ctor.ret 7).run = .ok 7 ∧
    (Use (ProvideFunc (New Nat) 0 "int" (.ret 7)) 0 "int" =
        ({ New Nat with
            providers := insertA (New Nat).providers 0 ⟨"int", some (.ret 7), true, some 7⟩ },
         true, .ret 7 none) ∧
      Use ({ New Nat with
            providers := insertA (New Nat).providers 0 ⟨"int", some (.ret 7), true, some 7⟩ } :
          ServiceLocator Nat) 0 "int" =
        ({ New Nat with
            providers := insertA (New Nat).providers 0 ⟨"int", some (.ret 7), true, some 7⟩ },
         false, .ret 7 none)) :=
  ⟨rfl, lazy_memoization (New Nat) 0 "int" (.ret 7) 7 rfl⟩

/-- C3. For a lazily registered slot whose constructor fails with `e`, `Use`
propagates `e` itself (paired with the zero value), invokes the constructor
(invoked flag `true`), and leaves the locator exactly as `ProvideFunc` left
it — entry unconfigured, no value cached — so the next `Use` is the same
call on the same state and invokes the constructor again with the same
outcome. -/
theorem ctor_failure_retry {Val : Type} [Inhabited Val] (l : ServiceLocator Val)
    (key : Nat) (ty : String) (c : Ctor Val) (e : Err) (h : c.run = .error e) :
    Use (ProvideFunc l key ty c) key ty =
      (ProvideFunc l key ty c, true, .ret default (some e)) ∧
    lookupA (ProvideFunc l key ty c).providers key =
      some ⟨ty, some c, false, none⟩ ∧
    Use (Use (ProvideFunc l key ty c) key ty).1 key ty =
      (ProvideFunc l key ty c, true, .ret default (some e)) := by
  have h1 : Use (ProvideFunc l key ty c) key ty =
      (ProvideFunc l key ty c, true, .ret default (some e)) := by
    simp [Use, ProvideFunc, useSlotValue, lookupA_insertA_self,
      slotEntry.ensureConfigured, h, insertA_insertA]
  refine ⟨h1, ?_, ?_⟩
  · simp [ProvideFunc, lookupA_insertA_self]
  · rw [h1]
    exact h1

/-- Witness for `ctor_failure_retry`: the constructor `Ctor.fail (Err.msg
"boom")` at token `0` of a fresh locator over `Nat`. -/
theorem ctor_failure_retry_witness :
    (Ctor.fail (Err.msg "boom") : Ctor Nat).run = .error (.msg "boom") ∧
    (Use (ProvideFunc (New Nat) 0 "int" (.fail (.msg "boom"))) 0 "int" =
        (ProvideFunc (New Nat) 0 "int" (.fail (.msg "boom")), true,
         .ret 0 (some (.msg "boom"))) ∧
      lookupA (ProvideFunc (New Nat) 0 "int" (.fail (.msg "boom"))).providers 0 =
        some ⟨"int", some (.fail (.msg "boom")), false, none⟩ ∧
      Use (Use (ProvideFunc (New Nat) 0 "int" (.fail (.msg "boom"))) 0 "int").1
          0 "int" =
        (ProvideFunc (New Nat) 0 "int" (.fail (.msg "boom")), true,
         .ret 0 (some (.msg "boom")))) :=
  ⟨rfl, ctor_failure_retry (New Nat) 0 "int" (.fail (.msg "boom")) (.msg "boom") rfl⟩

/-- C2. Hook dispatch invokes the registered listeners in registration
order on the payload. If all listeners succeed, `UseHook` succeeds after
invoking each in order (the trace is the tag list in registration order).
If the listeners are a succeeding prefix, then a failing listener, then a
remainder, exactly the prefix and the failing listener are invoked (the
remainder is not), the failing listener's error is returned to the caller
unchanged, and the prefix's tags remain in the trace (effects are not
rolled back). The locator is unchanged in both cases. -/
theorem hook_dispatch_order {Val : Type} (l : ServiceLocator Val) (key : Nat)
    (ty : String) (ls pre post : List (HookListener Val))
    (bad : HookListener Val) (v : Val) (e : Err)
    (hok : ∀ L ∈ ls, L.behavior v = .ok ())
    (hpre : ∀ L ∈ pre, L.behavior v = .ok ())
    (hbad : bad.behavior v = .error e) :
    UseHook (ProvideHook l key ty ls) key v =
      (ProvideHook l key ty ls, ls.map HookListener.tag, .ret () none) ∧
    UseHook (ProvideHook l key ty (pre ++ bad :: post)) key v =
      (ProvideHook l key ty (pre ++ bad :: post),
       pre.map HookListener.tag ++ [bad.tag], .ret () (some e)) := by
  constructor
  · simp [UseHook, ProvideHook, lookupA_insertA_self,
      runListeners_all_ok _ _ _ hok]
  · simp [UseHook, ProvideHook, lookupA_insertA_self,
      runListeners_prefix_fail _ _ _ post bad e hpre hbad]

/-- Witness for `hook_dispatch_order`: over `Nat`, the all-succeed part
with listeners tagged `1, 2` and the short-circuit part with succeeding
listener `1`, failing listener `2`, and never-reached listener `3`, on
payload `5`. -/
theorem hook_dispatch_order_witness :
    (∀ L ∈ [(⟨1, fun _ => .ok ()⟩ : HookListener Nat), ⟨2, fun _ => .ok ()⟩],
      L.behavior 5 = .ok ()) ∧
    (∀ L ∈ [(⟨1, fun _ => .ok ()⟩ : HookListener Nat)], L.behavior 5 = .ok ()) ∧
    (⟨2, fun _ => .error (.msg "boom")⟩ : HookListener Nat).behavior 5 =
      .error (.msg "boom") ∧
    (UseHook (ProvideHook (New Nat) 0 "int"
          [⟨1, fun _ => .ok ()⟩, ⟨2, fun _ => .ok ()⟩]) 0 5 =
        (ProvideHook (New Nat) 0 "int"
          [⟨1, fun _ => .ok ()⟩, ⟨2, fun _ => .ok ()⟩], [1, 2], .ret () none) ∧
      UseHook (ProvideHook (New Nat) 0 "int"
          ([⟨1, fun _ => .ok ()⟩] ++ ⟨2, fun _ => .error (.msg "boom")⟩ ::
            [⟨3, fun _ => .ok ()⟩])) 0 5 =
        (ProvideHook (New Nat) 0 "int"
          ([⟨1, fun _ => .ok ()⟩] ++ ⟨2, fun _ => .error (.msg "boom")⟩ ::
            [⟨3, fun _ => .ok ()⟩]), [1] ++ [2], .ret () (some (.msg "boom")))) := by
  have hok2 : ∀ L ∈ [(⟨1, fun _ => .ok ()⟩ : HookListener Nat),
      ⟨2, fun _ => .ok ()⟩], L.behavior 5 = .ok () := by
    intro L hL
    simp only [List.mem_cons, List.not_mem_nil, or_false] at hL
    rcases hL with rfl | rfl <;> rfl
  have hok1 : ∀ L ∈ [(⟨1, fun _ => .ok ()⟩ : HookListener Nat)],
      L.behavior 5 = .ok () := by
    intro L hL
    simp only [List.mem_cons, List.not_mem_nil, or_false] at hL
    rcases hL with rfl
    rfl
  exact ⟨hok2, hok1, rfl,
    hook_dispatch_order (New Nat) 0 "int"
      [⟨1, fun _ => .ok ()⟩, ⟨2, fun _ => .ok ()⟩]
      [⟨1, fun _ => .ok ()⟩] [⟨3, fun _ => .ok ()⟩]
      ⟨2, fun _ => .error (.msg "boom")⟩ 5 (.msg "boom") hok2 hok1 rfl⟩

/-- C8. The claim says tokens from two distinct `NewSlot` calls are unequal
even when both are parameterized by the same payload type `T`, and the
source's own comments promise the same ("Each instance is unique"; the slot
type is a pointer precisely so that "we might want to have more slots for
the same type"). The code does not deliver this: `new(struct{})` is a
zero-size allocation, for which the reference gc runtime returns the shared
`zerobase` address, so every `NewSlot[T]` call with the same `T` returns a
token with identical dynamic type and identical pointer value — equal as a
`map[any]` key. This theorem records the actual behaviour: any two calls in
a sequence of `NewSlot` (or `NewHook`) calls return tokens that are equal
exactly when their payload types coincide — the call indices `i`, `j` are
irrelevant — and every such token's address is `zerobase`. (Tokens of
distinct payload types, or of slot versus hook kind, still differ via the
dynamic type, which is why the repository's test suite, creating only slots
of pairwise distinct types, never observes the collision.) -/
theorem token_zerobase_collision (ty ty1 ty2 : String) (i j : Nat) :
    (slotTokenAt ty1 i = slotTokenAt ty2 j ↔ ty1 = ty2) ∧
    (slotTokenAt ty i).addr = zerobase ∧
    (hookTokenAt ty1 i = hookTokenAt ty2 j ↔ ty1 = ty2) ∧
    (hookTokenAt ty i).addr = zerobase ∧
    slotTokenAt ty1 i ≠ hookTokenAt ty2 j := by
  refine ⟨?_, rfl, ?_, rfl, ?_⟩ <;>
    simp [slotTokenAt, hookTokenAt, NewSlot, NewHook, Token.mk.injEq]

end GoSL
